import Mathlib

/-!
Shallow embedding of the PDF ingestion backend (pdf-llm-backend).

The embedding models, from the source:
  * `src/src/utils/validate_pdf.py`  — `PDFValidator.is_valid`,
    `PDFValidator._check_pdf_structure`, `PDFValidator._check_pdf_content`,
    `PDFValidator.is_valid_upload`;
  * `src/src/extractors/pdf_extractor.py` — `PDFExtractor.extract_text`;
  * `src/src/services/s3_service.py` — `S3Service.upload_file_to_s3`;
  * `src/src/comms/api_server.py` — the `upload_pdf`, `get_document` and
    `get_documents` route handlers.

External libraries (pypdf, pdfplumber, boto3, motor/MongoDB) are modelled as
oracles: each call either raises (an `Except.error` carrying the exception
message) or returns its result.  Files are byte lists; streams carry an
explicit position.  Machine-level concerns (I/O races, encodings) are out of
scope.
-/

namespace PdfBackend

/-- Result of running the external PDF parsing libraries over one byte
buffer.  `pypdf` models `pypdf.PdfReader`: an exception, or the
`is_encrypted` flag of the parsed reader.  `plumber` models
`pdfplumber.open` together with the per-page `extract_text()` calls: an
exception anywhere inside the `with` block, or the list of page results
(`none` models Python `None`, `some t` an extracted string `t`). -/
structure PdfParse where
  pypdf : Except String Bool
  plumber : Except String (List (Option String))
  deriving Repr

/-- A file on disk as the validator sees it: whether `os.path.isfile` holds,
the raw bytes, and the parse outcomes of the two external libraries on
those bytes. -/
structure PdfFile where
  isFile : Bool
  bytes : List Nat
  parse : PdfParse
  deriving Repr

/-- The 5 signature bytes of a PDF header, `b"%PDF-"`. -/
def pdf_header : List Nat := [37, 80, 68, 70, 45]

/-- The PDF end-of-file marker bytes, `b"%%EOF"`. -/
def eof_marker : List Nat := [37, 37, 69, 79, 70]

/-- `startsWithSeq pat l` holds when `pat` is an initial run of `l`. -/
def startsWithSeq : List Nat → List Nat → Bool
  | [], _ => true
  | _ :: _, [] => false
  | p :: ps, x :: xs => p == x && startsWithSeq ps xs

/-- `containsSeq pat l` holds when `pat` occurs contiguously inside `l`
(the Python `pat in bytes` membership test). -/
def containsSeq (pat : List Nat) : List Nat → Bool
  | [] => startsWithSeq pat []
  | x :: xs => startsWithSeq pat (x :: xs) || containsSeq pat xs

/-- ASCII whitespace recognised by Python `str.strip()`. -/
def isSpaceChar (c : Char) : Bool :=
  c == ' ' || c == '\t' || c == '\n' || c == '\r' || c == '\x0b' || c == '\x0c'

/-- Drop leading whitespace characters. -/
def dropSpaces : List Char → List Char
  | [] => []
  | c :: cs => if isSpaceChar c then dropSpaces cs else c :: cs

/-- Python `str.strip()`: remove leading and trailing whitespace. -/
def strip (s : String) : String :=
  String.mk ((dropSpaces (dropSpaces s.data).reverse).reverse)

/-- Python `s.endswith(suf)`: `suf` is a suffix of `s` (character-wise). -/
def endswith (s suf : String) : Bool := suf.data.isSuffixOf s.data

namespace PDFValidator

/-- `PDFValidator._check_pdf_structure`:  open the file (a missing file
raises, caught to `False`), read the first 5 bytes and compare with the PDF
header, then `seek(-1024, SEEK_END)` (raises when the file is shorter than
1024 bytes, caught to `False`) and look for `%%EOF` in the final 1024
bytes. -/
def check_pdf_structure (f : PdfFile) : Bool :=
  if f.isFile = false then false
  else if f.bytes.take 5 ≠ pdf_header then false
  else if f.bytes.length < 1024 then false
  else containsSeq eof_marker (f.bytes.drop (f.bytes.length - 1024))

/-- `PDFValidator._check_pdf_content`: first probe encryption with pypdf
(a pypdf exception is swallowed and the checks continue); then open with
pdfplumber (an exception yields a negative result with the exception
message), require at least one page, and require the first page to yield
non-empty text after stripping. -/
def check_pdf_content (f : PdfFile) : Bool × String :=
  match f.parse.pypdf with
  | .ok true => (false, "PDF is encrypted and cannot be processed")
  | _ =>
    match f.parse.plumber with
    | .error e => (false, "PDF content validation failed: " ++ e)
    | .ok [] => (false, "PDF has no pages")
    | .ok (p0 :: _) =>
      match p0 with
      | none => (false, "PDF page is blank or contains no extractable text")
      | some t =>
        if strip t = "" then
          (false, "PDF page is blank or contains no extractable text")
        else (true, "PDF content is valid")

/-- `PDFValidator.is_valid`: existence, minimum size, structure, then
content; the surrounding `try/except` never fires in the model because the
helpers are total. -/
def is_valid (minFileSize : Nat) (f : PdfFile) : Bool × String :=
  if f.isFile = false then (false, "File does not exist or is not a file")
  else if f.bytes.length < minFileSize then
    (false, "File size is too small (less than " ++ toString minFileSize ++ " bytes)")
  else if check_pdf_structure f = false then
    (false, "PDF structure invalid: missing header or EOF marker")
  else
    let c := check_pdf_content f
    if c.1 = false then (false, c.2) else (true, "PDF is valid")

end PDFValidator

/-- A FastAPI `UploadFile` as the handlers see it: the client-supplied
filename, the full underlying bytes, and the current stream position
(`read()` consumes from `pos` to the end, `seek(0)` resets it). -/
structure UploadState where
  filename : String
  data : List Nat
  pos : Nat
  deriving Repr

/-- Outcome of `PDFValidator.is_valid_upload`: the verdict and message,
the caller's stream after the call, and whether the temporary copy made
for validation still exists when the call returns. -/
structure ValUploadResult where
  verdict : Bool
  message : String
  upload : UploadState
  tempRemains : Bool
  deriving Repr

namespace PDFValidator

/-- `PDFValidator.is_valid_upload`: reject a filename not ending in
`.pdf`; otherwise copy the remaining stream bytes into a fresh temporary
file, `seek(0)` the upload stream, run `is_valid` on the temporary copy,
delete it, and return the verdict.  `mk` is the parsing oracle giving the
external libraries' outcome on any byte buffer; the temporary file always
exists while it is validated. -/
def is_valid_upload (minFileSize : Nat) (mk : List Nat → PdfParse)
    (uf : UploadState) : ValUploadResult :=
  if endswith uf.filename ".pdf" = false then
    { verdict := false, message := "File extension is not .pdf",
      upload := uf, tempRemains := false }
  else
    let content := uf.data.drop uf.pos
    let temp : PdfFile := { isFile := true, bytes := content, parse := mk content }
    let uf2 : UploadState := { uf with pos := 0 }
    let r := is_valid minFileSize temp
    { verdict := r.1, message := r.2, upload := uf2, tempRemains := false }

end PDFValidator

namespace PDFExtractor

/-- One iteration of the extraction loop body: a page whose result is
truthy (neither `None` nor the empty string) appends its text followed by
a blank-line separator to the accumulator; other pages contribute
nothing. -/
def pageStep (text : String) (pt : Option String) : String :=
  match pt with
  | none => text
  | some t => if t = "" then text else text ++ t ++ "\n\n"

/-- `PDFExtractor.extract_text`, given the per-page `extract_text(layout=True)`
results of a successfully opened PDF: fold the loop body over the pages in
page order, starting from the empty string. -/
def extract_text (pages : List (Option String)) : String :=
  pages.foldl pageStep ""

/-- The page texts that actually contribute: pages in order, keeping
exactly the non-`None`, non-empty results. -/
def nonEmptyTexts (pages : List (Option String)) : List String :=
  pages.filterMap
    (fun pt =>
      match pt with
      | none => none
      | some t => if t = "" then none else some t)

/-- Concatenation of a list of strings, in order. -/
def joinAll : List String → String
  | [] => ""
  | s :: ss => s ++ joinAll ss

end PDFExtractor

namespace S3Service

/-- Storage key for a document identifier, `f"documents/{doc_id}.pdf"`. -/
def s3Key (docId : String) : String := "documents/" ++ docId ++ ".pdf"

/-- `S3Service.upload_file_to_s3`: inside a `try` block, reject an invalid
ObjectId (the raised 400 is caught by the handler's own `except` and
re-wrapped), read the file and `put_object` it under `s3Key docId`
(`putRes` is the boto3 oracle), then return the browser-accessible URL
embedding the bucket, region and key.  Any exception becomes a 500 whose
detail prefixes the cause with `"Upload to S3 failed: "`. -/
def upload_file_to_s3 (bucket region : String) (docId : String)
    (oidValid : Bool) (putRes : Except String Unit) : Except String String :=
  if oidValid = false then
    .error "Upload to S3 failed: 400: Invalid ObjectId format"
  else
    match putRes with
    | .error e => .error ("Upload to S3 failed: " ++ e)
    | .ok _ =>
      .ok ("https://" ++ bucket ++ ".s3." ++ region ++ ".amazonaws.com/" ++ s3Key docId)

end S3Service

/-- A document record in the MongoDB collection: `_id`, `filename`,
`upload_time` (an abstract timestamp), `extracted_text` and `s3_uri`. -/
structure DocRecord where
  id : String
  filename : String
  uploadTime : Nat
  extractedText : String
  s3Uri : String
  deriving Repr, DecidableEq

/-- The documents collection: the list of records, in insertion order. -/
abbrev Repo := List DocRecord

/-- Outcomes the pipeline oracle supplies for the four external calls of
the upload handler: `insert_one` (returning the generated ObjectId),
`upload_file_to_s3`, `extract_text`, and `update_one` (returning
`modified_count`).  An `Except.error` models the call raising, carrying
`str(e)`. -/
structure PipelineEnv where
  insertRes : Except String String
  s3Res : Except String String
  extractRes : Except String String
  updateRes : Except String Nat
  deriving Repr

/-- HTTP outcome of the upload route: a 400 rejection, a 500 failure, or
a 200 success carrying `doc_id` and the fixed success message. -/
inductive UploadOutcome where
  | badRequest : String → UploadOutcome
  | serverError : String → UploadOutcome
  | success : String → String → UploadOutcome
  deriving Repr, DecidableEq

/-- The message wrapper of the handler's `except Exception` block:
every exception raised after validation is re-raised as
`HTTPException(500, f"Upload to s3 failed: {str(e)}")`. -/
def wrapUploadErr (e : String) : String := "Upload to s3 failed: " ++ e

/-- `update_one({"_id": docId}, {"$set": {...}})`: set `s3_uri` and
`extracted_text` on the (first, `_id` being unique) matching record. -/
def applySet (docId url text : String) : Repo → Repo
  | [] => []
  | d :: ds =>
    if d.id = docId then { d with s3Uri := url, extractedText := text } :: ds
    else d :: applySet docId url text ds

/-- The `upload_pdf` route handler after validation has been consulted:
`val` is the validator's verdict/message pair.  On a negative verdict the
request is rejected with a 400 carrying the validator's message and
nothing else runs.  Otherwise, inside a single `try/except`: insert the
placeholder record (empty text and URI), upload to S3, re-read the stream
and extract text, `$set` both fields, fail with a raised 500 when
`modified_count == 0` (that `HTTPException` is caught by the same `except`
and re-wrapped), re-read the record and answer 200 with its id.  Every
exception surfaces as a 500 whose detail is `wrapUploadErr` of `str(e)`. -/
def upload_pdf (filename : String) (now : Nat) (val : Bool × String)
    (env : PipelineEnv) (repo : Repo) : UploadOutcome × Repo :=
  if val.1 = false then (.badRequest val.2, repo)
  else
    match env.insertRes with
    | .error e => (.serverError (wrapUploadErr e), repo)
    | .ok docId =>
      let repo1 := repo ++ [⟨docId, filename, now, "", ""⟩]
      match env.s3Res with
      | .error e => (.serverError (wrapUploadErr e), repo1)
      | .ok s3Url =>
        match env.extractRes with
        | .error e => (.serverError (wrapUploadErr e), repo1)
        | .ok text =>
          match env.updateRes with
          | .error e => (.serverError (wrapUploadErr e), repo1)
          | .ok 0 =>
            (.serverError (wrapUploadErr "500: Failed to update document in database."), repo1)
          | .ok (_ + 1) =>
            let repo2 := applySet docId s3Url text repo1
            match repo2.find? (fun d => d.id == docId) with
            | none => (.serverError (wrapUploadErr "NoneType object is not subscriptable"), repo2)
            | some d =>
              (.success d.id "PDF File uploaded to s3 and text extracted successfully", repo2)

/-- The upload route end to end: run `is_valid_upload` on the upload
stream, then the handler body on its verdict. -/
def upload_request (minFileSize : Nat) (mk : List Nat → PdfParse)
    (uf : UploadState) (now : Nat) (env : PipelineEnv) (repo : Repo) :
    UploadOutcome × Repo :=
  let v := PDFValidator.is_valid_upload minFileSize mk uf
  upload_pdf uf.filename now (v.verdict, v.message) env repo

/-- The earliest failing stage's exception message, in the order the
handler body runs the stages; `none` when every stage succeeds (a
`modified_count` of zero counts as the persistence stage failing with the
raised 500's string form). -/
def firstPipelineError (env : PipelineEnv) : Option String :=
  match env.insertRes with
  | .error e => some e
  | .ok _ =>
    match env.s3Res with
    | .error e => some e
    | .ok _ =>
      match env.extractRes with
      | .error e => some e
      | .ok _ =>
        match env.updateRes with
        | .error e => some e
        | .ok 0 => some "500: Failed to update document in database."
        | .ok (_ + 1) => none

/-- A well-formed BSON ObjectId string: 24 hexadecimal characters
(`bson.ObjectId(oid)` raises `InvalidId` on anything else). -/
def hexDigit (c : Char) : Bool :=
  c.isDigit || ('a' ≤ c && c ≤ 'f') || ('A' ≤ c && c ≤ 'F')

/-- Whether `ObjectId(docId)` succeeds. -/
def isValidObjectId (s : String) : Bool :=
  s.length == 24 && s.data.all hexDigit

/-- Outcome of the `GET /documents/{doc_id}` handler: the HTTP status,
whether the repository was queried at all, and the returned record (for
200). -/
structure GetResult where
  status : Nat
  queried : Bool
  doc : Option DocRecord
  deriving Repr, DecidableEq

/-- The `get_document` route handler: converting a malformed id raises and
is answered 400 before any query; a well-formed id is looked up by `_id`,
absence answered 404, presence answered 200 with the record. -/
def get_document (docId : String) (repo : Repo) : GetResult :=
  if isValidObjectId docId = false then
    { status := 400, queried := false, doc := none }
  else
    match repo.find? (fun d => d.id == docId) with
    | none => { status := 404, queried := true, doc := none }
    | some d => { status := 200, queried := true, doc := some d }

/-- Insert a record into a list sorted by `upload_time` descending. -/
def insertByTimeDesc (d : DocRecord) : List DocRecord → List DocRecord
  | [] => [d]
  | x :: xs =>
    if d.uploadTime ≤ x.uploadTime then x :: insertByTimeDesc d xs
    else d :: x :: xs

/-- MongoDB `find({}).sort("upload_time", -1)`: the collection sorted by
`upload_time` descending. -/
def sortByTimeDesc : List DocRecord → List DocRecord
  | [] => []
  | x :: xs => insertByTimeDesc x (sortByTimeDesc xs)

/-- Response of the `GET /documents` listing handler: the page of records
and the pagination metadata. -/
structure Paginated where
  documents : List DocRecord
  total : Nat
  page : Nat
  limit : Nat
  pages : Nat
  hasNext : Bool
  hasPrev : Bool
  deriving Repr

/-- The `get_documents` route handler: `skip = (page-1)*limit`, count the
collection, query sorted by `upload_time` descending with skip and limit,
compute `pages = (total + limit - 1) / limit`, `has_next = page < pages`,
`has_prev = page > 1`. -/
def get_documents (page limit : Nat) (repo : Repo) : Paginated :=
  let skip := (page - 1) * limit
  let total := repo.length
  let docs := ((sortByTimeDesc repo).drop skip).take limit
  let totalPages := (total + limit - 1) / limit
  { documents := docs, total := total, page := page, limit := limit,
    pages := totalPages,
    hasNext := decide (page < totalPages), hasPrev := decide (1 < page) }

/-! ### Concrete instances used by counterexamples and witnesses -/

/-- A 1024-byte buffer carrying the PDF header and an EOF marker. -/
def goodBytes : List Nat := pdf_header ++ eof_marker ++ List.replicate 1014 32

/-- A structurally well-formed file that pypdf reports as encrypted and
whose first page yields empty extracted text. -/
def encryptedBlankFile : PdfFile :=
  { isFile := true, bytes := goodBytes,
    parse := { pypdf := .ok true, plumber := .ok [some ""] } }

/-- A structurally well-formed file on which the pypdf encryption probe
raises while pdfplumber extracts readable text. -/
def pypdfFailureFile : PdfFile :=
  { isFile := true, bytes := goodBytes,
    parse := { pypdf := .error "parse error", plumber := .ok [some "hello"] } }

/-- A structurally well-formed, unencrypted file whose first page strips
to the empty string. -/
def blankPageFile : PdfFile :=
  { isFile := true, bytes := goodBytes,
    parse := { pypdf := .ok false, plumber := .ok [some " "] } }

/-- A structurally well-formed, unencrypted file on which pdfplumber
raises. -/
def plumberFailureFile : PdfFile :=
  { isFile := true, bytes := goodBytes,
    parse := { pypdf := .ok false, plumber := .error "bad xref" } }

/-- A well-parsed file whose bytes are only the 5 header bytes. -/
def smallFile : PdfFile :=
  { isFile := true, bytes := pdf_header,
    parse := { pypdf := .ok false, plumber := .ok [some "hi"] } }

/-- Parsing oracle for witnesses: every buffer parses cleanly. -/
def mkCleanParse : List Nat → PdfParse :=
  fun _ => { pypdf := .ok false, plumber := .ok [] }

/-- An upload whose filename does not end in `.pdf`. -/
def txtUpload : UploadState := { filename := "notes.txt", data := [1, 2, 3], pos := 0 }

/-- An upload whose filename ends in `.pdf`. -/
def pdfUpload : UploadState := { filename := "doc.pdf", data := [1, 2], pos := 0 }

/-- An environment whose repository insert raises. -/
def envInsertFail : PipelineEnv :=
  { insertRes := .error "boom", s3Res := .ok "u", extractRes := .ok "t", updateRes := .ok 1 }

/-- An environment whose object-store upload raises (same cause string). -/
def envS3Fail : PipelineEnv :=
  { insertRes := .ok "id1", s3Res := .error "boom", extractRes := .ok "t", updateRes := .ok 1 }

/-- An all-success environment. -/
def envAllOk : PipelineEnv :=
  { insertRes := .ok "id1", s3Res := .ok "u", extractRes := .ok "t", updateRes := .ok 1 }

/-- A one-record repository. -/
def repoOne : Repo := [⟨"aaaaaaaaaaaaaaaaaaaaaaaa", "old.pdf", 3, "told", "uold"⟩]

/-- A four-record repository with distinct upload times. -/
def repoFour : Repo :=
  [⟨"a", "f", 1, "", ""⟩, ⟨"b", "g", 5, "", ""⟩, ⟨"c", "h", 3, "", ""⟩, ⟨"d", "i", 2, "", ""⟩]

/-! ### C1 — rejected uploads create no record -/

/-- C1: when the validator's verdict on the uploaded file is negative, the
upload request answers 400 with the validator's message and returns the
repository unchanged — the insert is never performed. -/
theorem upload_rejected_leaves_repo_unchanged (minFileSize : Nat)
    (mk : List Nat → PdfParse) (uf : UploadState) (now : Nat)
    (env : PipelineEnv) (repo : Repo)
    (h : (PDFValidator.is_valid_upload minFileSize mk uf).verdict = false) :
    upload_request minFileSize mk uf now env repo =
      (.badRequest (PDFValidator.is_valid_upload minFileSize mk uf).message, repo) := by
  unfold upload_request upload_pdf
  simp [h]

/-- Witness for C1 at a concrete rejected upload (wrong extension). -/
theorem upload_rejected_leaves_repo_unchanged_witness :
    (PDFValidator.is_valid_upload 1024 mkCleanParse txtUpload).verdict = false ∧
    upload_request 1024 mkCleanParse txtUpload 7 envAllOk repoOne =
      (.badRequest (PDFValidator.is_valid_upload 1024 mkCleanParse txtUpload).message, repoOne) :=
  ⟨by decide,
   upload_rejected_leaves_repo_unchanged 1024 mkCleanParse txtUpload 7 envAllOk repoOne (by decide)⟩

/-! ### C5 — validation leaves the caller's stream and filesystem clean -/

/-- C5: for an upload stream positioned at the start, `is_valid_upload`
returns with the stream back at position 0, the underlying bytes intact,
and the temporary validation copy removed, whatever the verdict. -/
theorem is_valid_upload_resets_stream_and_removes_temp (minFileSize : Nat)
    (mk : List Nat → PdfParse) (uf : UploadState) (h : uf.pos = 0) :
    (PDFValidator.is_valid_upload minFileSize mk uf).upload.pos = 0 ∧
    (PDFValidator.is_valid_upload minFileSize mk uf).upload.data = uf.data ∧
    (PDFValidator.is_valid_upload minFileSize mk uf).upload.filename = uf.filename ∧
    (PDFValidator.is_valid_upload minFileSize mk uf).tempRemains = false := by
  unfold PDFValidator.is_valid_upload
  by_cases hc : endswith uf.filename ".pdf" = false <;> simp [hc, h]

/-- Witness for C5 at a concrete upload positioned at the start. -/
theorem is_valid_upload_resets_stream_and_removes_temp_witness :
    pdfUpload.pos = 0 ∧
    ((PDFValidator.is_valid_upload 1024 mkCleanParse pdfUpload).upload.pos = 0 ∧
     (PDFValidator.is_valid_upload 1024 mkCleanParse pdfUpload).upload.data = pdfUpload.data ∧
     (PDFValidator.is_valid_upload 1024 mkCleanParse pdfUpload).upload.filename = pdfUpload.filename ∧
     (PDFValidator.is_valid_upload 1024 mkCleanParse pdfUpload).tempRemains = false) :=
  ⟨rfl, is_valid_upload_resets_stream_and_removes_temp 1024 mkCleanParse pdfUpload rfl⟩

/-! ### C6 — the size check short-circuits everything after it -/

/-- C6: every existing file strictly shorter than the minimum threshold is
rejected with the size reason, whatever its bytes and however the parsing
libraries would behave on it. -/
theorem small_file_rejected_with_size_reason (minFileSize : Nat) (f : PdfFile)
    (hf : f.isFile = true) (hs : f.bytes.length < minFileSize) :
    PDFValidator.is_valid minFileSize f =
      (false, "File size is too small (less than " ++ toString minFileSize ++ " bytes)") := by
  unfold PDFValidator.is_valid
  simp [hf, hs]

/-- Witness for C6 at a concrete 5-byte file with healthy parse results. -/
theorem small_file_rejected_with_size_reason_witness :
    smallFile.isFile = true ∧ smallFile.bytes.length < 1024 ∧
    PDFValidator.is_valid 1024 smallFile =
      (false, "File size is too small (less than " ++ toString 1024 ++ " bytes)") :=
  ⟨rfl, by decide, small_file_rejected_with_size_reason 1024 smallFile rfl (by decide)⟩

/-! ### C2 — order of the validator's checks -/

set_option maxRecDepth 8000 in
/-- C2 counterexample: a file that is both encrypted and blank on its
first page is reported with the encryption reason, not the
blank/unreadable reason the claim's ordering (encryption last) requires. -/
theorem validator_encryption_reported_before_blank_counterexample :
    PDFValidator.is_valid 1024 encryptedBlankFile =
      (false, "PDF is encrypted and cannot be processed") ∧
    (PDFValidator.is_valid 1024 encryptedBlankFile).2 ≠
      "PDF page is blank or contains no extractable text" := by
  refine ⟨by decide, by decide⟩

/-- C2 (amended): the checks short-circuit in the code's order — filename
extension, existence, size, header/EOF structure, then encryption, then
page count and first-page text: once the earlier checks pass, an encrypted
file is reported with the encryption reason whatever pdfplumber would say,
and an unencrypted file whose first page strips to nothing is reported
with the blank/unreadable reason. -/
theorem validator_checks_encryption_before_content (minFileSize : Nat) (f : PdfFile)
    (hf : f.isFile = true) (hs : ¬ f.bytes.length < minFileSize)
    (hstruct : PDFValidator.check_pdf_structure f = true) :
    (f.parse.pypdf = .ok true →
      PDFValidator.is_valid minFileSize f =
        (false, "PDF is encrypted and cannot be processed")) ∧
    (∀ t rest, f.parse.pypdf = .ok false → f.parse.plumber = .ok (some t :: rest) →
      strip t = "" →
      PDFValidator.is_valid minFileSize f =
        (false, "PDF page is blank or contains no extractable text")) := by
  constructor
  · intro henc
    unfold PDFValidator.is_valid PDFValidator.check_pdf_content
    simp [hf, hs, hstruct, henc]
  · intro t rest hp hpl hstrip
    unfold PDFValidator.is_valid PDFValidator.check_pdf_content
    simp [hf, hs, hstruct, hp, hpl, hstrip]

set_option maxRecDepth 8000 in
/-- Witness for the amended C2 at a concrete unencrypted file whose first
page strips to the empty string. -/
theorem validator_checks_encryption_before_content_witness :
    PDFValidator.is_valid 1024 blankPageFile =
      (false, "PDF page is blank or contains no extractable text") :=
  (validator_checks_encryption_before_content 1024 blankPageFile rfl (by decide)
      (by decide)).2 " " [] rfl rfl (by decide)

/-! ### C7 — totality of the validator on corrupt inputs -/

set_option maxRecDepth 8000 in
/-- C7 counterexample: a parse failure of the pypdf encryption probe
(check 7) is caught and skipped rather than converted into a negative
result — with pdfplumber succeeding, validation answers positively. -/
theorem validator_swallows_pypdf_parse_failure_counterexample :
    PDFValidator.is_valid 1024 pypdfFailureFile = (true, "PDF is valid") ∧
    pypdfFailureFile.parse.pypdf = Except.error "parse error" :=
  ⟨by decide, rfl⟩

/-- Strings with a non-empty left part stay non-empty under append. -/
theorem append_ne_empty_of_left_ne (s t : String) (h : s.length ≠ 0) :
    s ++ t ≠ "" := by
  intro hc
  have hl := congrArg String.length hc
  simp [String.length_append] at hl
  exact h hl.1

/-- Strings with a non-empty right part stay non-empty under append. -/
theorem append_ne_empty_of_right_ne (s t : String) (h : t.length ≠ 0) :
    s ++ t ≠ "" := by
  intro hc
  have hl := congrArg String.length hc
  simp [String.length_append] at hl
  exact h hl.2

/-- The message of `check_pdf_content` is never the empty string. -/
theorem check_pdf_content_snd_ne_empty (f : PdfFile) :
    (PDFValidator.check_pdf_content f).2 ≠ "" := by
  unfold PDFValidator.check_pdf_content
  split
  · decide
  · split
    · simpa using append_ne_empty_of_left_ne "PDF content validation failed: " _ (by decide)
    · decide
    · split
      · decide
      · split
        · decide
        · decide

/-- C7 (amended): the embedded `is_valid` is a total function — every
input yields a verdict with a non-empty reason/message string — and a
pdfplumber parse failure during the content checks yields a negative
result carrying the failure's message; only a failure of the pypdf
encryption probe is caught and skipped, validation continuing with the
pdfplumber checks. -/
theorem validator_total_with_descriptive_reason (minFileSize : Nat) (f : PdfFile) :
    (PDFValidator.is_valid minFileSize f).2 ≠ "" ∧
    (∀ e, f.isFile = true → ¬ f.bytes.length < minFileSize →
      PDFValidator.check_pdf_structure f = true →
      f.parse.pypdf ≠ .ok true → f.parse.plumber = .error e →
      PDFValidator.is_valid minFileSize f =
        (false, "PDF content validation failed: " ++ e)) := by
  constructor
  · unfold PDFValidator.is_valid
    by_cases hf : f.isFile = false
    · simp [hf]
    · by_cases hs : f.bytes.length < minFileSize
      · simp [hf, hs]
        exact append_ne_empty_of_right_ne _ _ (by decide)
      · by_cases hstr : PDFValidator.check_pdf_structure f = false
        · simp [hf, hs, hstr]
        · by_cases hc : (PDFValidator.check_pdf_content f).1 = false
          · simpa [hf, hs, hstr, hc] using check_pdf_content_snd_ne_empty f
          · simp [hf, hs, hstr, hc]
  · intro e hf hs hstruct hp hpl
    unfold PDFValidator.is_valid PDFValidator.check_pdf_content
    rcases hpy : f.parse.pypdf with e2 | b
    · simp [hf, hs, hstruct, hpl, hpy]
    · rcases b with _ | _
      · simp [hf, hs, hstruct, hpl, hpy]
      · exact absurd hpy hp

set_option maxRecDepth 8000 in
/-- Witness for the amended C7 at a concrete file on which pdfplumber
raises. -/
theorem validator_total_with_descriptive_reason_witness :
    PDFValidator.is_valid 1024 plumberFailureFile =
      (false, "PDF content validation failed: " ++ "bad xref") :=
  (validator_total_with_descriptive_reason 1024 plumberFailureFile).2 "bad xref"
    rfl (by decide) (by decide) (by simp [plumberFailureFile]) rfl

/-! ### C3 — post-validation failures surface as one 500 -/

/-- C3 counterexample: an insert-stage failure and an object-store-stage
failure with the same cause produce the very same 500 message, so the
user-facing message cannot carry the originating stage — it names the s3
stage whatever stage failed. -/
theorem upload_failure_message_ignores_stage_counterexample :
    (upload_pdf "a.pdf" 7 (true, "PDF is valid") envInsertFail []).1 =
      .serverError "Upload to s3 failed: boom" ∧
    (upload_pdf "a.pdf" 7 (true, "PDF is valid") envS3Fail []).1 =
      .serverError "Upload to s3 failed: boom" := by
  refine ⟨rfl, rfl⟩

/-- C3 (amended): whenever any post-validation stage fails — repository
insert, object-store upload, text extraction, update raising, or the
update reporting zero modified records — the handler answers a single 500
whose message is the fixed prefix of the s3 stage followed by the
underlying cause string of the earliest failing stage; no success response
is returned and no failure is swallowed. -/
theorem upload_failure_single_500_with_cause (filename : String) (now : Nat)
    (m : String) (env : PipelineEnv) (repo : Repo) (c : String)
    (h : firstPipelineError env = some c) :
    (upload_pdf filename now (true, m) env repo).1 =
      .serverError (wrapUploadErr c) := by
  obtain ⟨ins, s3, ext, upd⟩ := env
  unfold firstPipelineError at h
  unfold upload_pdf
  rcases ins with e | docId
  · simp at h ⊢
    exact congrArg wrapUploadErr h
  · rcases s3 with e | url
    · simp at h ⊢
      exact congrArg wrapUploadErr h
    · rcases ext with e | text
      · simp at h ⊢
        exact congrArg wrapUploadErr h
      · rcases upd with e | n
        · simp at h ⊢
          exact congrArg wrapUploadErr h
        · rcases n with _ | n
          · simp at h ⊢
            exact congrArg wrapUploadErr h
          · simp at h

/-- Witness for the amended C3 at a concrete insert failure. -/
theorem upload_failure_single_500_with_cause_witness :
    (upload_pdf "a.pdf" 7 (true, "PDF is valid") envInsertFail repoOne).1 =
      .serverError (wrapUploadErr "boom") :=
  upload_failure_single_500_with_cause "a.pdf" 7 "PDF is valid" envInsertFail repoOne
    "boom" rfl

/-! ### C4 — how page texts are joined -/

/-- C4 counterexample: a single page of text comes back with a trailing
blank-line separator, not as exactly that page's text. -/
theorem extract_single_page_trailing_separator_counterexample :
    PDFExtractor.extract_text [some "hello"] = "hello\n\n" ∧
    PDFExtractor.extract_text [some "hello"] ≠ "hello" := by
  refine ⟨rfl, by decide⟩

/-- The extraction fold, from any accumulator, appends the contributing
page texts each followed by the blank-line separator. -/
theorem extract_text_foldl_eq (pages : List (Option String)) : ∀ acc : String,
    pages.foldl PDFExtractor.pageStep acc =
      acc ++ PDFExtractor.joinAll
        ((PDFExtractor.nonEmptyTexts pages).map (fun t => t ++ "\n\n")) := by
  induction pages with
  | nil => intro acc; simp [PDFExtractor.nonEmptyTexts, PDFExtractor.joinAll]
  | cons pt ps ih =>
    intro acc
    rcases pt with _ | t
    · simp only [List.foldl_cons, PDFExtractor.pageStep, PDFExtractor.nonEmptyTexts,
        List.filterMap_cons]
      exact ih acc
    · by_cases ht : t = ""
      · simp only [List.foldl_cons, PDFExtractor.pageStep, PDFExtractor.nonEmptyTexts,
          List.filterMap_cons, ht, if_pos rfl]
        simpa [PDFExtractor.nonEmptyTexts] using ih acc
      · simp only [List.foldl_cons, PDFExtractor.pageStep, PDFExtractor.nonEmptyTexts,
          List.filterMap_cons, if_neg ht]
        rw [ih (acc ++ t ++ "\n\n")]
        simp [PDFExtractor.nonEmptyTexts, PDFExtractor.joinAll, String.append_assoc]

/-- C4 (amended): the extraction output is the pages' non-`None`,
non-empty texts, in page order, each followed by the blank-line separator
(the separator terminates every contributing page, including the last, so
a single-page document yields its text plus a trailing separator). -/
theorem extract_text_joins_nonempty_pages_with_terminator (pages : List (Option String)) :
    PDFExtractor.extract_text pages =
      PDFExtractor.joinAll
        ((PDFExtractor.nonEmptyTexts pages).map (fun t => t ++ "\n\n")) := by
  unfold PDFExtractor.extract_text
  simpa using extract_text_foldl_eq pages ""

/-! ### C8 — storage key derivation and the stored locator -/

/-- After `$set` on a freshly appended record, looking the record up by id
finds exactly the updated record. -/
theorem find_applySet_fresh (docId url text : String) (rec : DocRecord)
    (hid : rec.id = docId) :
    ∀ repo : Repo, (∀ d ∈ repo, d.id ≠ docId) →
      (applySet docId url text (repo ++ [rec])).find? (fun d => d.id == docId) =
        some { rec with s3Uri := url, extractedText := text } := by
  intro repo
  induction repo with
  | nil =>
    intro _
    simp [applySet, hid, List.find?]
  | cons d ds ih =>
    intro hall
    have hd : d.id ≠ docId := hall d (by simp)
    have hb : (d.id == docId) = false := by simpa using hd
    simp only [List.cons_append, applySet, if_neg hd, List.find?, hb]
    exact ih (fun x hx => hall x (by simp [hx]))

/-- C8: a successful adapter upload returns the URL built from the bucket,
the region and the key `documents/{id}.pdf`; the locator embeds exactly
that key, and the success path of the upload handler stores that locator
verbatim in the record with the given id. -/
theorem s3_key_format_and_stored_locator (bucket region docId filename m text url : String)
    (now n : Nat) (repo : Repo)
    (hup : S3Service.upload_file_to_s3 bucket region docId true (.ok ()) = .ok url)
    (hfresh : ∀ d ∈ repo, d.id ≠ docId) :
    url = "https://" ++ bucket ++ ".s3." ++ region ++ ".amazonaws.com/" ++ S3Service.s3Key docId ∧
    S3Service.s3Key docId = "documents/" ++ docId ++ ".pdf" ∧
    (∃ p, url = p ++ S3Service.s3Key docId) ∧
    (upload_pdf filename now (true, m)
        ⟨.ok docId, .ok url, .ok text, .ok (n + 1)⟩ repo).2.find? (fun d => d.id == docId) =
      some ⟨docId, filename, now, text, url⟩ := by
  have hurl : url =
      "https://" ++ bucket ++ ".s3." ++ region ++ ".amazonaws.com/" ++ S3Service.s3Key docId := by
    have := hup
    unfold S3Service.upload_file_to_s3 at this
    simp at this
    exact this.symm
  have hfind := find_applySet_fresh docId url text ⟨docId, filename, now, "", ""⟩ rfl repo hfresh
  refine ⟨hurl, rfl, ⟨"https://" ++ bucket ++ ".s3." ++ region ++ ".amazonaws.com/", hurl⟩, ?_⟩
  unfold upload_pdf
  simp only [show ¬((true, m).1 = false) from by simp, if_neg]
  rcases hmatch : (applySet docId url text
      (repo ++ [⟨docId, filename, now, "", ""⟩])).find? (fun d => d.id == docId) with _ | d
  · rw [hmatch] at hfind; exact absurd hfind (by simp)
  · simp only [hmatch]
    exact hfind

/-- Witness for C8 at a concrete bucket, region, id and repository. -/
theorem s3_key_format_and_stored_locator_witness :
    "https://b.s3.r.amazonaws.com/documents/abc.pdf" =
      "https://" ++ "b" ++ ".s3." ++ "r" ++ ".amazonaws.com/" ++ S3Service.s3Key "abc" ∧
    S3Service.s3Key "abc" = "documents/" ++ "abc" ++ ".pdf" ∧
    (∃ p, "https://b.s3.r.amazonaws.com/documents/abc.pdf" = p ++ S3Service.s3Key "abc") ∧
    (upload_pdf "f.pdf" 7 (true, "PDF is valid")
        ⟨.ok "abc", .ok "https://b.s3.r.amazonaws.com/documents/abc.pdf", .ok "text", .ok 1⟩
        repoOne).2.find? (fun d => d.id == "abc") =
      some ⟨"abc", "f.pdf", 7, "text", "https://b.s3.r.amazonaws.com/documents/abc.pdf"⟩ :=
  s3_key_format_and_stored_locator "b" "r" "abc" "f.pdf" "PDF is valid" "text"
    "https://b.s3.r.amazonaws.com/documents/abc.pdf" 7 0 repoOne rfl (by decide)

/-! ### C9 — pagination of the listing endpoint -/

/-- The mathematical ceiling of `a / b` on naturals, written from its
quotient-and-remainder characterisation (not the code's formula). -/
def ceilNat (a b : Nat) : Nat := a / b + (if a % b = 0 then 0 else 1)

/-- The code's `(a + b - 1) / b` computes the ceiling of `a / b`. -/
theorem add_pred_div_eq_ceilNat (a b : Nat) (hb : 1 ≤ b) :
    (a + b - 1) / b = ceilNat a b := by
  rcases a with _ | n
  · simp [ceilNat, Nat.div_eq_of_lt (show b - 1 < b by omega)]
  · have h1 : n + 1 + b - 1 = n + b := by omega
    rw [h1, Nat.add_div_right n hb, ceilNat, Nat.succ_div]
    by_cases hd : b ∣ n + 1
    · simp [hd, Nat.mod_eq_zero_of_dvd hd]
    · have hm : ¬ (n + 1) % b = 0 := fun hc => hd (Nat.dvd_of_mod_eq_zero hc)
      simp [hd, hm]

/-- The descending-creation-time order on records. -/
def timeDescRel (a b : DocRecord) : Prop := b.uploadTime ≤ a.uploadTime

/-- Members of an insertion are the inserted record or old members. -/
theorem mem_insertByTimeDesc (d x : DocRecord) :
    ∀ l : List DocRecord, x ∈ insertByTimeDesc d l → x = d ∨ x ∈ l := by
  intro l
  induction l with
  | nil => intro hx; simpa [insertByTimeDesc] using hx
  | cons y ys ih =>
    intro hx
    unfold insertByTimeDesc at hx
    by_cases hc : d.uploadTime ≤ y.uploadTime
    · rw [if_pos hc] at hx
      rcases List.mem_cons.mp hx with h | h
      · exact Or.inr (by simp [h])
      · rcases ih h with h2 | h2
        · exact Or.inl h2
        · exact Or.inr (by simp [h2])
    · rw [if_neg hc] at hx
      rcases List.mem_cons.mp hx with h | h
      · exact Or.inl h
      · exact Or.inr h

/-- Inserting into a descending-sorted list keeps it descending-sorted. -/
theorem pairwise_insertByTimeDesc (d : DocRecord) :
    ∀ l : List DocRecord, l.Pairwise timeDescRel →
      (insertByTimeDesc d l).Pairwise timeDescRel := by
  intro l
  induction l with
  | nil => intro _; simp [insertByTimeDesc]
  | cons y ys ih =>
    intro hp
    rcases List.pairwise_cons.mp hp with ⟨hy, hys⟩
    unfold insertByTimeDesc
    by_cases hc : d.uploadTime ≤ y.uploadTime
    · rw [if_pos hc]
      refine List.pairwise_cons.mpr ⟨?_, ih hys⟩
      intro x hx
      rcases mem_insertByTimeDesc d x ys hx with h | h
      · rw [h]; exact hc
      · exact hy x h
    · rw [if_neg hc]
      refine List.pairwise_cons.mpr ⟨?_, hp⟩
      intro x hx
      rcases List.mem_cons.mp hx with h | h
      · rw [h]; exact Nat.le_of_lt (Nat.lt_of_not_le hc)
      · exact Nat.le_trans (hy x h) (Nat.le_of_lt (Nat.lt_of_not_le hc))

/-- The sorted view of the collection is descending in upload time. -/
theorem pairwise_sortByTimeDesc :
    ∀ l : List DocRecord, (sortByTimeDesc l).Pairwise timeDescRel := by
  intro l
  induction l with
  | nil => simp [sortByTimeDesc]
  | cons x xs ih => exact pairwise_insertByTimeDesc x (sortByTimeDesc xs) ih

/-- C9: for any page `p ≥ 1` and limit `1 ≤ l ≤ 100`, the listing returns
at most `l` records, ordered by upload time descending; `total` is the
collection's size, `has_next` holds exactly when `p` is below the ceiling
of `total / l`, and `has_prev` exactly when `p > 1`. -/
theorem get_documents_pagination_consistent (page limit : Nat) (repo : Repo)
    (hp : 1 ≤ page) (hl : 1 ≤ limit) (hl2 : limit ≤ 100) :
    (get_documents page limit repo).documents.length ≤ limit ∧
    (get_documents page limit repo).documents.Pairwise timeDescRel ∧
    (get_documents page limit repo).total = repo.length ∧
    ((get_documents page limit repo).hasNext = true ↔
      page < ceilNat (get_documents page limit repo).total limit) ∧
    ((get_documents page limit repo).hasPrev = true ↔ 1 < page) := by
  refine ⟨?_, ?_, rfl, ?_, ?_⟩
  · exact List.length_take_le limit _
  · exact List.Pairwise.sublist ((List.take_sublist _ _).trans (List.drop_sublist _ _))
      (pairwise_sortByTimeDesc repo)
  · show decide (page < (repo.length + limit - 1) / limit) = true ↔ _
    rw [add_pred_div_eq_ceilNat repo.length limit hl]
    exact decide_eq_true_iff
  · exact decide_eq_true_iff

/-- Witness for C9 at a concrete page, limit and four-record collection. -/
theorem get_documents_pagination_consistent_witness :
    (get_documents 2 3 repoFour).documents.length ≤ 3 ∧
    (get_documents 2 3 repoFour).documents.Pairwise timeDescRel ∧
    (get_documents 2 3 repoFour).total = repoFour.length ∧
    ((get_documents 2 3 repoFour).hasNext = true ↔
      2 < ceilNat (get_documents 2 3 repoFour).total 3) ∧
    ((get_documents 2 3 repoFour).hasPrev = true ↔ 1 < 2) :=
  get_documents_pagination_consistent 2 3 repoFour (by decide) (by decide) (by decide)

/-! ### C10 — the two read-path failures of the single-document fetch -/

/-- C10: a malformed identifier is answered 400 without the repository
being queried; a well-formed identifier with no matching record is
answered 404; a well-formed identifier with a matching record is answered
200 with the record — the 400 and 404 classes are never conflated. -/
theorem get_document_distinguishes_malformed_and_absent (docId : String) (repo : Repo) :
    (isValidObjectId docId = false →
      get_document docId repo = { status := 400, queried := false, doc := none }) ∧
    (isValidObjectId docId = true →
      repo.find? (fun d => d.id == docId) = none →
      get_document docId repo = { status := 404, queried := true, doc := none }) ∧
    (∀ d, isValidObjectId docId = true →
      repo.find? (fun d => d.id == docId) = some d →
      get_document docId repo = { status := 200, queried := true, doc := some d }) := by
  refine ⟨?_, ?_, ?_⟩
  · intro h; simp [get_document, h]
  · intro h hf; simp [get_document, h, hf]
  · intro d h hf; simp [get_document, h, hf]

/-- Witness for C10: a malformed id answered 400 untouched, a well-formed
absent id answered 404, and a well-formed present id answered 200. -/
theorem get_document_distinguishes_malformed_and_absent_witness :
    get_document "zz" repoOne = { status := 400, queried := false, doc := none } ∧
    get_document "bbbbbbbbbbbbbbbbbbbbbbbb" repoOne =
      { status := 404, queried := true, doc := none } ∧
    get_document "aaaaaaaaaaaaaaaaaaaaaaaa" repoOne =
      { status := 200, queried := true,
        doc := some ⟨"aaaaaaaaaaaaaaaaaaaaaaaa", "old.pdf", 3, "told", "uold"⟩ } :=
  ⟨(get_document_distinguishes_malformed_and_absent "zz" repoOne).1 (by decide),
   (get_document_distinguishes_malformed_and_absent "bbbbbbbbbbbbbbbbbbbbbbbb" repoOne).2.1
     (by decide) (by decide),
   (get_document_distinguishes_malformed_and_absent "aaaaaaaaaaaaaaaaaaaaaaaa" repoOne).2.2
     ⟨"aaaaaaaaaaaaaaaaaaaaaaaa", "old.pdf", 3, "told", "uold"⟩ (by decide) (by decide)⟩

end PdfBackend
